import Mathlib

/-!
# Verification of the banknote-detection pipeline

Shallow embedding of the prediction pipeline duplicated in `api_app.py`
(FastAPI handler `predict`) and `streamlit_app.py` (dashboard handler
`predict_data`), together with theorems settling the specification claims.

Modelling conventions:
* A CSV cell is a `Cell`: `num q` for a value that `pd.to_numeric` coerces to
  the rational `q`, `empty` for a blank field (already `NaN` after
  `pd.read_csv`), `junk` for non-numeric text (coerces to `NaN`, and makes the
  raw pandas column an `object`-dtype column).
* Machine floats are modelled as rationals `ℚ`.
* The two opaque artifacts (`scaler.sav`, `random_forest_model.sav`) are a
  structure of abstract functions, exactly as the spec treats them
  (black-box `scale`, `predict -> {0,1}`, `predict_proba -> [p0, p1]`).
* Exceptions surfacing as HTTP errors become `Except ApiError`; the dashboard
  handler catches every exception and returns `None`, hence `Option`.
-/

set_option maxRecDepth 8000

deriving instance DecidableEq for Except

/-- A raw CSV cell, as pandas sees it after `read_csv`. -/
inductive Cell
  | num (q : ℚ)
  | empty
  | junk
deriving DecidableEq

/-- `pd.to_numeric(-, errors='coerce')` on one cell: numbers survive, blanks
and non-numeric text become missing (`NaN`). -/
def Cell.toNum : Cell → Option ℚ
  | Cell.num q => some q
  | Cell.empty => none
  | Cell.junk => none

/-- Whether a cell holds a numeric value. -/
def Cell.isNum (c : Cell) : Bool := c.toNum.isSome

/-- Whether a cell is non-numeric text (what makes a pandas column
`object`-dtype). -/
def Cell.isJunk : Cell → Bool
  | Cell.junk => true
  | _ => false

/-- An uploaded table: a header of column names and one list of cells per
row, cell `j` of a row belonging to header entry `j`. -/
structure RawTable where
  header : List String
  rows : List (List Cell)

/-- Python whitespace characters stripped by `str.strip()` (the ones that can
occur in a CSV header field). -/
def isWS (c : Char) : Bool := c = ' ' ∨ c = '\t' ∨ c = '\n' ∨ c = '\r'

/-- `df.columns.str.strip().str.lower().str.replace(' ', '_')`
(api_app.py line 79 / streamlit_app.py line 209): trim whitespace, lowercase,
replace spaces with underscores.  ASCII lowercasing via `Char.toLower`
matches Python on the ASCII headers this app deals in. -/
def normalizeName (s : String) : String :=
  String.mk ((((s.data.dropWhile isWS).reverse.dropWhile isWS).reverse).map
    (fun c => if c = ' ' then '_' else c.toLower))

/-- The alias table `column_mapping` (api_app.py lines 82-89 /
streamlit_app.py lines 211-218), in the source's insertion order. -/
def columnMapping : List (String × List String) :=
  [("diagonal", ["diagonal", "dingmail", "diagonale"]),
   ("height_left", ["height_left", "hauteur_gauche"]),
   ("height_right", ["height_right", "hauteur_droite"]),
   ("margin_low", ["margin_low", "margin_bow", "marge_basse"]),
   ("margin_up", ["margin_up", "marge_haute"]),
   ("length", ["length", "longueur"])]

/-- The `required_columns` list (api_app.py line 99 / streamlit_app.py
line 226). -/
def requiredColumns : List String :=
  ["diagonal", "height_left", "height_right", "margin_low", "margin_up", "length"]

/-- One iteration of the rename loop
(`for variant in variants: if variant in df.columns: df.rename(...); break`,
api_app.py lines 92-96): the first alias present among the column names is
renamed to the canonical name.  `df.rename` renames by label, so every column
bearing that label is renamed. -/
def renameFirst (cols : List String) (std : String) (variants : List String) :
    List String :=
  match variants.find? (fun v => decide (v ∈ cols)) with
  | some v => cols.map (fun c => if c = v then std else c)
  | none => cols

/-- Column resolution: normalize all names, then run the rename loop for each
canonical name in the fixed `column_mapping` order (api_app.py lines 78-96 /
streamlit_app.py lines 209-224). -/
def resolveColumns (header : List String) : List String :=
  columnMapping.foldl (fun cols p => renameFirst cols p.1 p.2)
    (header.map normalizeName)

/-- `[col for col in required_columns if col not in df.columns]`
(api_app.py line 100 / streamlit_app.py line 227). -/
def missingColumns (header : List String) : List String :=
  requiredColumns.filter (fun c => !(decide (c ∈ header)))

/-- Index of the first column labelled `c` (how `df[c]` selects a column). -/
def idxOfStr (c : String) : List String → ℕ
  | [] => 0
  | h :: tl => if h = c then 0 else idxOfStr c tl + 1

/-- `df = df[required_columns].apply(pd.to_numeric, errors='coerce')`
(api_app.py line 108 / first half of streamlit_app.py line 233): restrict each
row to the six canonical columns, in `required_columns` order, coercing every
cell to a number or to missing.  A cell beyond the end of a ragged row is
already missing (`pandas` pads short rows with `NaN`). -/
def restrictRows (header : List String) (rows : List (List Cell)) :
    List (List (Option ℚ)) :=
  rows.map (fun r =>
    requiredColumns.map (fun c => Cell.toNum (r.getD (idxOfStr c header) Cell.empty)))

/-- The raw (pre-coercion) cells of the column labelled `c`. -/
def rawCol (header : List String) (rows : List (List Cell)) (c : String) :
    List Cell :=
  rows.map (fun r => r.getD (idxOfStr c header) Cell.empty)

/-- Insertion into a sorted list, for the sort underlying the median. -/
def insertSorted (x : ℚ) : List ℚ → List ℚ
  | [] => [x]
  | y :: ys => if x ≤ y then x :: y :: ys else y :: insertSorted x ys

/-- Insertion sort on rationals. -/
def sortQ (xs : List ℚ) : List ℚ := xs.foldr insertSorted []

/-- `Series.median()` over the given (non-missing) values: middle element of
the sorted list, or the mean of the two middle elements; `NaN` (modelled as
`none`) when there are no values at all. -/
def median (xs : List ℚ) : Option ℚ :=
  let s := sortQ xs
  let n := s.length
  if n = 0 then none
  else if n % 2 = 1 then s.get? (n / 2)
  else
    match s.get? (n / 2 - 1), s.get? (n / 2) with
    | some a, some b => some ((a + b) / 2)
    | _, _ => none

/-- The non-missing entries of a coerced column. -/
def someVals (col : List (Option ℚ)) : List ℚ := col.filterMap id

/-- Coerced column `j` of the restricted table. -/
def colOf (rows : List (List (Option ℚ))) (j : ℕ) : List (Option ℚ) :=
  rows.map (fun r => r.getD j none)

/-- Cell-wise fill of one row: cell `j`, when missing, is replaced by
`medians j` (which may itself be missing, in which case the cell stays
missing, as `fillna` with a `NaN` fill value leaves `NaN` in place). -/
def fillRow (medians : ℕ → Option ℚ) : ℕ → List (Option ℚ) → List (Option ℚ)
  | _, [] => []
  | j, some q :: cs => some q :: fillRow medians (j + 1) cs
  | j, none :: cs => medians j :: fillRow medians (j + 1) cs

/-- `df = df.fillna(df.median())` (api_app.py line 109): each missing cell is
filled with the median of its own *coerced* column, computed over that
column's non-missing entries of the current batch. -/
def apiImpute (rows : List (List (Option ℚ))) : List (List (Option ℚ)) :=
  rows.map (fillRow (fun j => median (someVals (colOf rows j))) 0)

/-- `.fillna(df.median())` on streamlit_app.py line 233.  In that expression
`df` is still bound to the *original* dataframe (the assignment has not
happened yet), so the fill values are the medians of the raw, pre-coercion,
pre-restriction columns.  A raw column containing non-numeric text is an
`object`-dtype column: `DataFrame.median(numeric_only)` skips it (pandas 1.x;
pandas ≥ 2 raises instead, which aborts `predict_data` just the same), so its
missing cells are never filled.  A raw column without such text is a float
column whose `median()` skips `NaN` — the same value the API uses. -/
def stImpute (header : List String) (rows : List (List Cell)) :
    List (List (Option ℚ)) :=
  (restrictRows header rows).map
    (fillRow (fun j =>
      let c := requiredColumns.getD j ""
      let raw := rawCol header rows c
      if raw.any Cell.isJunk then none
      else median (raw.filterMap Cell.toNum)) 0)

/-- A fully numeric row, as fed to `scaler.transform`; `sklearn` raises on any
remaining `NaN`, which the embedding signals with `none`. -/
def denseRow : List (Option ℚ) → Option (List ℚ)
  | [] => some []
  | some q :: cs => (denseRow cs).map (fun l => q :: l)
  | none :: _ => none

/-- All rows fully numeric, or the `sklearn` `NaN` rejection. -/
def denseRows : List (List (Option ℚ)) → Option (List (List ℚ))
  | [] => some []
  | r :: rs =>
    match denseRow r, denseRows rs with
    | some dr, some drs => some (dr :: drs)
    | _, _ => none

/-- The two opaque model artifacts, as the spec treats them: `scale` is
`scaler.transform` on one row, `predict` the binary classifier's class in
`{0,1}`, `proba` its `predict_proba` pair `[p0, p1]`. -/
structure Artifacts where
  scale : List ℚ → List ℚ
  predict : List ℚ → Fin 2
  proba : List ℚ → ℚ × ℚ

/-- One entry of the API's `predictions` list (api_app.py lines 121-127). -/
structure ApiRow where
  id : ℕ
  prediction : String
  probability : ℚ
  features : List (String × ℚ)
  image_url : String
deriving DecidableEq

/-- One entry of the dashboard's `results` list (streamlit_app.py
lines 241-246): same fields, but no image URL. -/
structure StRow where
  id : ℕ
  prediction : String
  probability : ℚ
  features : List (String × ℚ)
deriving DecidableEq

/-- The `stats` record (api_app.py lines 135-141 / streamlit_app.py
lines 252-258). -/
structure StatsResult where
  total : ℕ
  genuine : ℕ
  fake : ℕ
  genuine_percentage : ℚ
  fake_percentage : ℚ
deriving DecidableEq

/-- The API's response body. -/
structure PredictionResponse where
  predictions : List ApiRow
  stats : StatsResult
deriving DecidableEq

/-- The dashboard's result value. -/
structure StResponse where
  predictions : List StRow
  stats : StatsResult
deriving DecidableEq

/-- Errors the API surfaces: a 400 with the missing-column list, or the
generic 500 every other exception is turned into (api_app.py
lines 101-105 and 148-153). -/
inductive ApiError
  | missingColumns (cols : List String)
  | internal
deriving DecidableEq

/-- HTTP status of each error. -/
def ApiError.status : ApiError → ℕ
  | ApiError.missingColumns _ => 400
  | ApiError.internal => 500

/-- `round(x, k)`: round to `k` decimal places.  (Python rounds ties to even
on binary floats; tie behaviour is immaterial to every claim below.) -/
def roundTo (k : ℕ) (q : ℚ) : ℚ :=
  ((round (q * (10 : ℚ) ^ k) : ℤ) : ℚ) / (10 : ℚ) ^ k

/-- The `stats` block (api_app.py lines 130-141 with `k = 2` decimals,
streamlit_app.py lines 249-258 with `k = 1`): `genuine = int(sum(predictions))`,
`fake = len - genuine`, percentages `round(count / len * 100, k)`.  With zero
rows the division `count / len(predictions)` raises `ZeroDivisionError`,
modelled as `none`. -/
def statsOf (k : ℕ) (preds : List (Fin 2)) : Option StatsResult :=
  if preds.length = 0 then none
  else
    some { total := preds.length
           genuine := (preds.map Fin.val).sum
           fake := preds.length - (preds.map Fin.val).sum
           genuine_percentage :=
             roundTo k (((preds.map Fin.val).sum : ℚ) / (preds.length : ℚ) * 100)
           fake_percentage :=
             roundTo k (((preds.length - (preds.map Fin.val).sum : ℕ) : ℚ) /
               (preds.length : ℚ) * 100) }

/-- The API's per-row results (api_app.py lines 119-127): 1-based id, label
`"Genuine"` iff the predicted class is truthy (non-zero), the
`predict_proba` entry of the predicted class, the post-imputation features,
and the result-image URL `/images/vrai.png` / `/images/faux.png`. -/
def mkApiResults (A : Artifacts) (dense : List (List ℚ)) : List ApiRow :=
  (List.range dense.length).map (fun i =>
    let row := dense.getD i []
    let s := A.scale row
    let pr := A.predict s
    { id := i + 1
      prediction := if pr ≠ 0 then "Genuine" else "Fake"
      probability := if pr ≠ 0 then (A.proba s).2 else (A.proba s).1
      features := requiredColumns.zip row
      image_url := if pr ≠ 0 then "/images/vrai.png" else "/images/faux.png" })

/-- The dashboard's per-row results (streamlit_app.py lines 239-246): same as
the API rows, without the image URL. -/
def mkStResults (A : Artifacts) (dense : List (List ℚ)) : List StRow :=
  (List.range dense.length).map (fun i =>
    let row := dense.getD i []
    let s := A.scale row
    let pr := A.predict s
    { id := i + 1
      prediction := if pr ≠ 0 then "Genuine" else "Fake"
      probability := if pr ≠ 0 then (A.proba s).2 else (A.proba s).1
      features := requiredColumns.zip row })

/-- The imputed numeric table the API feeds to the scaler. -/
def apiDense (t : RawTable) : Option (List (List ℚ)) :=
  denseRows (apiImpute (restrictRows (resolveColumns t.header) t.rows))

/-- The imputed numeric table the dashboard feeds to the scaler. -/
def stDense (t : RawTable) : Option (List (List ℚ)) :=
  denseRows (stImpute (resolveColumns t.header) t.rows)

/-- The API handler `predict` after the upload has been parsed (api_app.py
lines 78-153): resolve columns, fail 400 on missing ones, coerce + impute,
scale and classify, format results, compute stats.  Any other exception
(`NaN` reaching `scaler.transform`, `ZeroDivisionError` in the stats) becomes
the generic 500. -/
def apiPredict (A : Artifacts) (t : RawTable) :
    Except ApiError PredictionResponse :=
  if missingColumns (resolveColumns t.header) = [] then
    match apiDense t with
    | none => Except.error ApiError.internal
    | some dense =>
      match statsOf 2 (dense.map (fun r => A.predict (A.scale r))) with
      | none => Except.error ApiError.internal
      | some s =>
        Except.ok { predictions := mkApiResults A dense, stats := s }
  else Except.error (ApiError.missingColumns (missingColumns (resolveColumns t.header)))

/-- The dashboard handler `predict_data` (streamlit_app.py lines 205-263):
same pipeline, except the imputation slip on line 233, percentages rounded to
1 decimal place, and every failure path collapsing to `None` (the function
body is wrapped in `try/except` which reports the error and returns `None`). -/
def stPredict (A : Artifacts) (t : RawTable) : Option StResponse :=
  if missingColumns (resolveColumns t.header) = [] then
    match stDense t with
    | none => none
    | some dense =>
      match statsOf 1 (dense.map (fun r => A.predict (A.scale r))) with
      | none => none
      | some s => some { predictions := mkStResults A dense, stats := s }
  else none

/-- `POST /predict` upload handling (api_app.py lines 71-76): one opaque
attempt to decode the bytes as UTF-8 and parse them with an auto-detected
delimiter, and on any failure a second opaque attempt decoding as cp1252; if
that fails too, the exception reaches the generic handler (lines 148-153). -/
def handleUpload (dec1 dec2 : List ℕ → Option RawTable) (A : Artifacts)
    (bytes : List ℕ) : Except ApiError PredictionResponse :=
  match dec1 bytes with
  | some t => apiPredict A t
  | none =>
    match dec2 bytes with
    | some t => apiPredict A t
    | none => Except.error ApiError.internal

/-- A concrete artifact instance used for witnesses and counterexamples:
identity scaling, class 1 iff the first feature is positive, and a
fully confident probability pair. -/
def testArtifacts : Artifacts where
  scale := fun r => r
  predict := fun r => if 0 < r.headD 0 then 1 else 0
  proba := fun r => if 0 < r.headD 0 then (0, 1) else (1, 0)

/-- A header-only upload: the six canonical columns, zero data rows. -/
def emptyTable : RawTable := ⟨requiredColumns, []⟩

/-- Three fully numeric rows, exactly one of which is classified genuine by
`testArtifacts`. -/
def tbl3 : RawTable :=
  ⟨requiredColumns,
   [[Cell.num 1, Cell.num 1, Cell.num 1, Cell.num 1, Cell.num 1, Cell.num 1],
    [Cell.num 0, Cell.num 1, Cell.num 1, Cell.num 1, Cell.num 1, Cell.num 1],
    [Cell.num 0, Cell.num 1, Cell.num 1, Cell.num 1, Cell.num 1, Cell.num 1]]⟩

/-- Three rows whose `margin_low` column holds non-numeric text, `4` and `6`:
the batch median of the coerced column is `5`. -/
def tbl4 : RawTable :=
  ⟨requiredColumns,
   [[Cell.num 1, Cell.num 1, Cell.num 1, Cell.junk, Cell.num 1, Cell.num 1],
    [Cell.num 1, Cell.num 1, Cell.num 1, Cell.num 4, Cell.num 1, Cell.num 1],
    [Cell.num 0, Cell.num 1, Cell.num 1, Cell.num 6, Cell.num 1, Cell.num 1]]⟩

/-- One fully numeric row classified genuine by `testArtifacts`. -/
def tblG : RawTable :=
  ⟨requiredColumns,
   [[Cell.num 1, Cell.num 1, Cell.num 1, Cell.num 1, Cell.num 1, Cell.num 1]]⟩

/-- An upload whose header lacks `height_right` entirely. -/
def tblMissing : RawTable :=
  ⟨["diagonal", "height_left", "margin_low", "margin_up", "length"],
   [[Cell.num 1, Cell.num 1, Cell.num 1, Cell.num 1, Cell.num 1]]⟩



/-- A fully numeric, well-formed table: every row has one cell per header
entry and every cell is numeric. -/
def RawTable.allNum (t : RawTable) : Bool :=
  t.rows.all (fun r => r.length == t.header.length && r.all Cell.isNum)

/-- The fields of an API row that the dashboard also produces. -/
def apiRowView (p : ApiRow) : ℕ × String × ℚ × List (String × ℚ) :=
  (p.id, p.prediction, p.probability, p.features)

/-- The fields of a dashboard row, in the same shape. -/
def stRowView (p : StRow) : ℕ × String × ℚ × List (String × ℚ) :=
  (p.id, p.prediction, p.probability, p.features)

/-- The per-row data and the three counts of an API response (everything
except the rounded percentages and the image URLs). -/
def apiView (r : PredictionResponse) :
    List (ℕ × String × ℚ × List (String × ℚ)) × ℕ × ℕ × ℕ :=
  (r.predictions.map apiRowView, r.stats.total, r.stats.genuine, r.stats.fake)

/-- The per-row data and the three counts of a dashboard response. -/
def stView (r : StResponse) :
    List (ℕ × String × ℚ × List (String × ℚ)) × ℕ × ℕ × ℕ :=
  (r.predictions.map stRowView, r.stats.total, r.stats.genuine, r.stats.fake)

/-- The dense table the pipeline computes from `tblG`. -/
def denseG : List (List ℚ) := [[1, 1, 1, 1, 1, 1]]

/-- The dense table the pipeline computes from `tbl3`. -/
def dense3 : List (List ℚ) :=
  [[1, 1, 1, 1, 1, 1], [0, 1, 1, 1, 1, 1], [0, 1, 1, 1, 1, 1]]

/-- The API row produced for the single row of `tblG` under
`testArtifacts`. -/
def rowG : ApiRow :=
  { id := 1
    prediction := "Genuine"
    probability := 1
    features := [("diagonal", 1), ("height_left", 1), ("height_right", 1),
      ("margin_low", 1), ("margin_up", 1), ("length", 1)]
    image_url := "/images/vrai.png" }

/-- The API response for `tblG` under `testArtifacts`. -/
def respG : PredictionResponse :=
  { predictions := mkApiResults testArtifacts denseG
    stats := { total := 1, genuine := 1, fake := 0,
               genuine_percentage := 100, fake_percentage := 0 } }

/-- The API response for `tbl3` under `testArtifacts`. -/
def resp3api : PredictionResponse :=
  { predictions := mkApiResults testArtifacts dense3
    stats := { total := 3, genuine := 1, fake := 2,
               genuine_percentage := 3333/100, fake_percentage := 6667/100 } }

/-- The dashboard response for `tbl3` under `testArtifacts`. -/
def resp3st : StResponse :=
  { predictions := mkStResults testArtifacts dense3
    stats := { total := 3, genuine := 1, fake := 2,
               genuine_percentage := 333/10, fake_percentage := 667/10 } }

/-- The dense table the API computes from `tbl4`: the junk `margin_low` cell
of the first row is imputed with the batch median `5` of the coerced column
`[4, 6]`. -/
def dense4 : List (List ℚ) :=
  [[1, 1, 1, 5, 1, 1], [1, 1, 1, 4, 1, 1], [0, 1, 1, 6, 1, 1]]

/-- The API response for `tbl4` under `testArtifacts`. -/
def resp4api : PredictionResponse :=
  { predictions := mkApiResults testArtifacts dense4
    stats := { total := 3, genuine := 2, fake := 1,
               genuine_percentage := 6667/100, fake_percentage := 3333/100 } }

/-! ## General lemmas about the pipeline pieces -/

/-- The class values of a binary classifier sum to at most the row count. -/
theorem sum_fin2_le (l : List (Fin 2)) : (l.map Fin.val).sum ≤ l.length := by
  induction l with
  | nil => simp
  | cons hd tl ih =>
    have : hd.val ≤ 1 := Nat.lt_succ_iff.mp hd.isLt
    simp only [List.map_cons, List.sum_cons, List.length_cons]
    omega

/-- Filling changes nothing on a row without missing values. -/
theorem fillRow_allSome (m : ℕ → Option ℚ) :
    ∀ (j : ℕ) (r : List (Option ℚ)), (∀ c ∈ r, c.isSome) → fillRow m j r = r := by
  intro j r
  induction r generalizing j with
  | nil => intro _; rfl
  | cons hd tl ih =>
    intro h
    match hd, h hd (List.mem_cons_self hd tl) with
    | some q, _ =>
      simp only [fillRow]
      exact congrArg _ (ih (j + 1) (fun c hc => h c (List.mem_cons_of_mem _ hc)))

/-- Filling preserves the row length. -/
theorem fillRow_length (m : ℕ → Option ℚ) :
    ∀ (j : ℕ) (r : List (Option ℚ)), (fillRow m j r).length = r.length := by
  intro j r
  induction r generalizing j with
  | nil => rfl
  | cons hd tl ih =>
    match hd with
    | some q => simp only [fillRow, List.length_cons, ih]
    | none => simp only [fillRow, List.length_cons, ih]

/-- A densified row has the length of the row it came from. -/
theorem denseRow_length :
    ∀ (r : List (Option ℚ)) (dr : List ℚ), denseRow r = some dr → dr.length = r.length := by
  intro r
  induction r with
  | nil => intro dr h; simp only [denseRow, Option.some.injEq] at h; simp [← h]
  | cons hd tl ih =>
    intro dr h
    match hd with
    | none => simp [denseRow] at h
    | some q =>
      simp only [denseRow, Option.map_eq_some'] at h
      obtain ⟨l, hl, rfl⟩ := h
      simp [ih l hl]

/-- Every row of a densified table densifies some row of the original. -/
theorem denseRows_mem :
    ∀ (rows : List (List (Option ℚ))) (d : List (List ℚ)) (dr : List ℚ),
      denseRows rows = some d → dr ∈ d → ∃ r ∈ rows, denseRow r = some dr := by
  intro rows
  induction rows with
  | nil =>
    intro d dr h hm
    simp only [denseRows, Option.some.injEq] at h
    subst h; simp at hm
  | cons r rs ih =>
    intro d dr h hm
    simp only [denseRows] at h
    match hr : denseRow r, hrs : denseRows rs with
    | some x, some xs =>
      rw [hr, hrs] at h
      simp only [Option.some.injEq] at h
      subst h
      rcases List.mem_cons.mp hm with h1 | h1
      · exact ⟨r, List.mem_cons_self r rs, h1 ▸ hr⟩
      · obtain ⟨r0, hr0, hd0⟩ := ih xs dr hrs h1
        exact ⟨r0, List.mem_cons_of_mem _ hr0, hd0⟩
    | some x, none => rw [hr, hrs] at h; exact absurd h (by simp)
    | none, some xs => rw [hr] at h; exact absurd h (by simp)
    | none, none => rw [hr] at h; exact absurd h (by simp)

/-- A table whose cells are all present densifies to itself (unwrapped). -/
theorem denseRow_of_allSome :
    ∀ (r : List (Option ℚ)), (∀ c ∈ r, c.isSome) → ∃ dr, denseRow r = some dr := by
  intro r
  induction r with
  | nil => intro _; exact ⟨[], rfl⟩
  | cons hd tl ih =>
    intro h
    match hd, h hd (List.mem_cons_self hd tl) with
    | some q, _ =>
      obtain ⟨dr, hdr⟩ := ih (fun c hc => h c (List.mem_cons_of_mem _ hc))
      exact ⟨q :: dr, by simp [denseRow, hdr]⟩

/-- Every row produced by the column restriction has exactly the six
canonical entries. -/
theorem restrictRows_row_length (header : List String) (rows : List (List Cell))
    (r : List (Option ℚ)) (h : r ∈ restrictRows header rows) :
    r.length = requiredColumns.length := by
  simp only [restrictRows, List.mem_map] at h
  obtain ⟨r0, _, rfl⟩ := h
  simp

/-- Rows of the API-imputed table keep their length. -/
theorem apiImpute_row_length (rows : List (List (Option ℚ)))
    (r : List (Option ℚ)) (h : r ∈ apiImpute rows) :
    ∃ r0 ∈ rows, r.length = r0.length := by
  simp only [apiImpute, List.mem_map] at h
  obtain ⟨r0, hr0, rfl⟩ := h
  exact ⟨r0, hr0, fillRow_length _ 0 r0⟩

/-- Rows of the dashboard-imputed table keep the length of the restricted
rows they fill. -/
theorem stImpute_row_length (header : List String) (rows : List (List Cell))
    (r : List (Option ℚ)) (h : r ∈ stImpute header rows) :
    ∃ r0 ∈ restrictRows header rows, r.length = r0.length := by
  simp only [stImpute, List.mem_map] at h
  obtain ⟨r0, hr0, rfl⟩ := h
  exact ⟨r0, hr0, fillRow_length _ 0 r0⟩

/-- Column resolution never changes the number of columns. -/
theorem resolveColumns_length (header : List String) :
    (resolveColumns header).length = header.length := by
  rw [resolveColumns]
  have step : ∀ (m : List (String × List String)) (cols : List String),
      (m.foldl (fun cs p => renameFirst cs p.1 p.2) cols).length = cols.length := by
    intro m
    induction m with
    | nil => intro cols; rfl
    | cons p ps ih =>
      intro cols
      rw [List.foldl_cons, ih]
      rw [renameFirst]
      match p.2.find? (fun v => decide (v ∈ cols)) with
      | some v => simp
      | none => rfl
  rw [step, List.length_map]

/-- Rounding to `k` decimal places moves a value by at most half a unit in
the last place. -/
theorem roundTo_abs_le (k : ℕ) (x : ℚ) :
    |roundTo k x - x| ≤ 1 / (2 * 10 ^ k) := by
  have h10 : (0 : ℚ) < 10 ^ k := by positivity
  have hrw : roundTo k x - x = (((round (x * 10 ^ k) : ℤ) : ℚ) - x * 10 ^ k) / 10 ^ k := by
    rw [roundTo]
    field_simp
    ring
  rw [hrw, abs_div, abs_of_pos h10]
  rw [show (1 : ℚ) / (2 * 10 ^ k) = (1 / 2) / 10 ^ k by
    rw [div_div]]
  rw [div_le_div_iff_of_pos_right h10]
  rw [abs_sub_comm]
  exact abs_sub_round (x * 10 ^ k)

/-- Inversion of the stats block: the counts always satisfy the claimed
invariants, the percentages are the roundings of the exact ratios at the
block's fixed number of decimals, and they sum to `100` within one unit in
the last place. -/
theorem statsOf_spec (k : ℕ) (preds : List (Fin 2)) (s : StatsResult)
    (h : statsOf k preds = some s) :
    0 < s.total
    ∧ s.genuine + s.fake = s.total
    ∧ s.genuine_percentage = roundTo k ((s.genuine : ℚ) / (s.total : ℚ) * 100)
    ∧ s.fake_percentage = roundTo k ((s.fake : ℚ) / (s.total : ℚ) * 100)
    ∧ |s.genuine_percentage + s.fake_percentage - 100| ≤ 1 / 10 ^ k := by
  rw [statsOf] at h
  by_cases hn : preds.length = 0
  · rw [if_pos hn] at h
    exact absurd h (by simp)
  · rw [if_neg hn] at h
    have hs := Option.some.inj h
    subst hs
    have hg : (preds.map Fin.val).sum ≤ preds.length := sum_fin2_le preds
    have hn' : ((preds.length : ℚ)) ≠ 0 := Nat.cast_ne_zero.mpr hn
    refine ⟨Nat.pos_of_ne_zero hn, Nat.add_sub_cancel' hg, rfl, rfl, ?_⟩
    set n := preds.length with hnn
    set g := (preds.map Fin.val).sum with hgg
    have hcast : ((n - g : ℕ) : ℚ) = (n : ℚ) - (g : ℚ) := Nat.cast_sub hg
    have hab : ((g : ℚ) / (n : ℚ) * 100) + (((n - g : ℕ) : ℚ) / (n : ℚ) * 100) = 100 := by
      rw [hcast]
      field_simp
      ring
    set a := ((g : ℚ) / (n : ℚ) * 100) with ha
    set b := (((n - g : ℕ) : ℚ) / (n : ℚ) * 100) with hb
    have hsplit : roundTo k a + roundTo k b - 100
        = (roundTo k a - a) + (roundTo k b - b) := by
      rw [← hab]; ring
    have h2 : (1 : ℚ) / (2 * 10 ^ k) + 1 / (2 * 10 ^ k) = 1 / 10 ^ k := by
      have : ((10 : ℚ)) ^ k ≠ 0 := by positivity
      field_simp
      ring
    calc |roundTo k a + roundTo k b - 100|
        = |(roundTo k a - a) + (roundTo k b - b)| := by rw [hsplit]
      _ ≤ |roundTo k a - a| + |roundTo k b - b| := abs_add _ _
      _ ≤ 1 / (2 * 10 ^ k) + 1 / (2 * 10 ^ k) :=
          add_le_add (roundTo_abs_le k a) (roundTo_abs_le k b)
      _ = 1 / 10 ^ k := h2

/-- Inversion of a successful API request: the column check passed, the
table densified, and the response is the formatted results plus the stats of
the classifier outputs. -/
theorem apiPredict_ok (A : Artifacts) (t : RawTable) (r : PredictionResponse)
    (h : apiPredict A t = Except.ok r) :
    missingColumns (resolveColumns t.header) = []
    ∧ ∃ dense, apiDense t = some dense
      ∧ r.predictions = mkApiResults A dense
      ∧ statsOf 2 (dense.map (fun row => A.predict (A.scale row))) = some r.stats := by
  rw [apiPredict] at h
  by_cases hm : missingColumns (resolveColumns t.header) = []
  · rw [if_pos hm] at h
    refine ⟨hm, ?_⟩
    split at h
    · exact absurd h (by simp)
    · rename_i dense hd
      split at h
      · exact absurd h (by simp)
      · rename_i s hs
        have heq := Except.ok.inj h
        exact ⟨dense, hd, by rw [← heq], by rw [← heq]; exact hs⟩
  · rw [if_neg hm] at h
    exact absurd h (by simp)

/-- Inversion of a successful dashboard run. -/
theorem stPredict_some (A : Artifacts) (t : RawTable) (r : StResponse)
    (h : stPredict A t = some r) :
    missingColumns (resolveColumns t.header) = []
    ∧ ∃ dense, stDense t = some dense
      ∧ r.predictions = mkStResults A dense
      ∧ statsOf 1 (dense.map (fun row => A.predict (A.scale row))) = some r.stats := by
  rw [stPredict] at h
  by_cases hm : missingColumns (resolveColumns t.header) = []
  · rw [if_pos hm] at h
    refine ⟨hm, ?_⟩
    split at h
    · exact absurd h (by simp)
    · rename_i dense hd
      split at h
      · exact absurd h (by simp)
      · rename_i s hs
        have heq := Option.some.inj h
        exact ⟨dense, hd, by rw [← heq], by rw [← heq]; exact hs⟩
  · rw [if_neg hm] at h
    exact absurd h (by simp)

/-- Membership inversion for the API result formatter: each emitted row is
the formatting of the dense row at its (1-based) id. -/
theorem mkApiResults_mem (A : Artifacts) (dense : List (List ℚ)) (p : ApiRow)
    (h : p ∈ mkApiResults A dense) :
    ∃ i, i < dense.length ∧ p.id = i + 1
      ∧ p = { id := i + 1
              prediction :=
                if A.predict (A.scale (dense.getD i [])) ≠ 0 then "Genuine" else "Fake"
              probability :=
                if A.predict (A.scale (dense.getD i [])) ≠ 0
                then (A.proba (A.scale (dense.getD i []))).2
                else (A.proba (A.scale (dense.getD i []))).1
              features := requiredColumns.zip (dense.getD i [])
              image_url :=
                if A.predict (A.scale (dense.getD i [])) ≠ 0
                then "/images/vrai.png" else "/images/faux.png" } := by
  rw [mkApiResults] at h
  simp only [List.mem_map, List.mem_range] at h
  obtain ⟨i, hi, rfl⟩ := h
  exact ⟨i, hi, rfl, rfl⟩

/-- Membership inversion for the dashboard result formatter. -/
theorem mkStResults_mem (A : Artifacts) (dense : List (List ℚ)) (p : StRow)
    (h : p ∈ mkStResults A dense) :
    ∃ i, i < dense.length ∧ p.id = i + 1
      ∧ p = { id := i + 1
              prediction :=
                if A.predict (A.scale (dense.getD i [])) ≠ 0 then "Genuine" else "Fake"
              probability :=
                if A.predict (A.scale (dense.getD i [])) ≠ 0
                then (A.proba (A.scale (dense.getD i []))).2
                else (A.proba (A.scale (dense.getD i []))).1
              features := requiredColumns.zip (dense.getD i []) } := by
  rw [mkStResults] at h
  simp only [List.mem_map, List.mem_range] at h
  obtain ⟨i, hi, rfl⟩ := h
  exact ⟨i, hi, rfl, rfl⟩

/-! ## Claim theorems -/

/-- C1: the claim says a 0-row batch yields `total = 0` with both percentages
defined as `0` and no division-by-zero error.  The code instead evaluates
`genuine_count / len(predictions)` with `len(predictions) = 0`, raising
`ZeroDivisionError`: the API turns it into the generic 500 and the dashboard
into `None` — no stats are ever returned.  This theorem evaluates both
handlers at the failing input. -/
theorem c1_zero_rows_division_error :
    apiPredict testArtifacts emptyTable = Except.error ApiError.internal
    ∧ stPredict testArtifacts emptyTable = none := by
  have h : resolveColumns emptyTable.header = requiredColumns := by decide
  have hm : missingColumns requiredColumns = [] := by decide
  constructor
  · rw [apiPredict, h, hm, if_pos rfl]
    rfl
  · rw [stPredict, h, hm, if_pos rfl]
    rfl

/-- C3: whenever any canonical column is still absent after resolution, both
handlers stop before imputation and scoring (the statement holds for every
artifact pair, so no scoring is involved): the API returns the 400 error
carrying exactly the list of missing canonical names, the dashboard returns
no result. -/
theorem c3_missing_columns_reject (A : Artifacts) (t : RawTable)
    (h : missingColumns (resolveColumns t.header) ≠ []) :
    apiPredict A t
      = Except.error (ApiError.missingColumns (missingColumns (resolveColumns t.header)))
    ∧ (ApiError.missingColumns (missingColumns (resolveColumns t.header))).status = 400
    ∧ stPredict A t = none := by
  refine ⟨?_, rfl, ?_⟩
  · rw [apiPredict, if_neg h]
  · rw [stPredict, if_neg h]

/-- Witness for C3 at the spec's own scenario: an upload without
`height_right` fails with exactly `["height_right"]`. -/
theorem c3_missing_columns_reject_witness :
    missingColumns (resolveColumns tblMissing.header) = ["height_right"]
    ∧ apiPredict testArtifacts tblMissing
        = Except.error (ApiError.missingColumns
            (missingColumns (resolveColumns tblMissing.header)))
    ∧ stPredict testArtifacts tblMissing = none := by
  have h := c3_missing_columns_reject testArtifacts tblMissing (by decide)
  exact ⟨by decide, h.1, h.2.2⟩

/-- C5 counterexample: two input columns (`diagonale` and `Diagonale `, the
latter normalizing to the same label) both map to the canonical `diagonal`,
and `df.rename` renames *both*, while the claim says the later candidate
column is left untouched (it would have kept the name `diagonale`). -/
theorem c5_counterexample :
    resolveColumns ["diagonale", "Diagonale "] = ["diagonal", "diagonal"]
    ∧ (resolveColumns ["diagonale", "Diagonale "]).getD 1 "" ≠ "diagonale" := by
  decide

/-- C5 amended: resolution first normalizes every column name, then for each
canonical name scans the alias list in its fixed order and renames every
column *bearing the first present alias label*; columns bearing a different,
later alias of the same canonical name are untouched; in particular
`"Diagonale "` resolves to `diagonal`, and `dingmail` wins over a
`diagonale` column that is then left alone. -/
theorem c5_amended_resolution :
    (∀ (cols : List String) (std : String) (vs : List String) (v : String),
      vs.find? (fun x => decide (x ∈ cols)) = some v →
      renameFirst cols std vs = cols.map (fun c => if c = v then std else c))
    ∧ (∀ (cols : List String) (std : String) (vs : List String),
      vs.find? (fun x => decide (x ∈ cols)) = none →
      renameFirst cols std vs = cols)
    ∧ (∀ (cols vs : List String) (v : String),
      vs.find? (fun x => decide (x ∈ cols)) = some v → v ∈ vs ∧ v ∈ cols)
    ∧ (∀ (cols : List String) (std : String) (vs : List String) (v : String)
        (i : ℕ) (c : String),
      vs.find? (fun x => decide (x ∈ cols)) = some v →
      cols.get? i = some c → c ≠ v →
      (renameFirst cols std vs).get? i = some c)
    ∧ resolveColumns ["Diagonale "] = ["diagonal"]
    ∧ resolveColumns ["dingmail", "diagonale", "height_left"]
        = ["diagonal", "diagonale", "height_left"] := by
  refine ⟨?_, ?_, ?_, ?_, by decide, by decide⟩
  · intro cols std vs v hfind
    rw [renameFirst, hfind]
  · intro cols std vs hfind
    rw [renameFirst, hfind]
  · intro cols vs v hfind
    refine ⟨List.mem_of_find?_eq_some hfind, ?_⟩
    have := List.find?_some hfind
    exact of_decide_eq_true this
  · intro cols std vs v i c hfind hget hne
    rw [renameFirst, hfind]
    rw [List.get?_eq_getElem?, List.getElem?_map]
    rw [List.get?_eq_getElem?] at hget
    rw [hget]
    simp [if_neg hne]

/-- Witness for C5 (amended): the alias `hauteur_gauche` is the first present
alias for `height_left`, so exactly the columns bearing it are renamed. -/
theorem c5_amended_resolution_witness :
    (["height_left", "hauteur_gauche"].find?
        (fun x => decide (x ∈ ["hauteur_gauche", "autre"])) = some "hauteur_gauche")
    ∧ renameFirst ["hauteur_gauche", "autre"] "height_left"
        ["height_left", "hauteur_gauche"]
      = (["hauteur_gauche", "autre"].map
          (fun c => if c = "hauteur_gauche" then "height_left" else c)) :=
  ⟨by decide, c5_amended_resolution.1 _ _ _ _ (by decide)⟩

/-- C8: the upload is handled by one opaque decode-and-parse attempt
(UTF-8, auto-detected delimiter) with a cp1252 fallback; if both attempts
fail, the request aborts with the generic error and no predictions; when an
attempt succeeds, its table is what the pipeline processes. -/
theorem c8_decode_fallback (d1 d2 : List ℕ → Option RawTable) (A : Artifacts)
    (b : List ℕ) :
    (d1 b = none → d2 b = none →
      handleUpload d1 d2 A b = Except.error ApiError.internal)
    ∧ (∀ t, d1 b = none → d2 b = some t → handleUpload d1 d2 A b = apiPredict A t)
    ∧ (∀ t, d1 b = some t → handleUpload d1 d2 A b = apiPredict A t) := by
  refine ⟨?_, ?_, ?_⟩
  · intro h1 h2
    rw [handleUpload, h1, h2]
  · intro t h1 h2
    rw [handleUpload, h1, h2]
  · intro t h1
    rw [handleUpload, h1]

/-- Witness for C8: when both decode attempts fail, the request aborts with
the generic error. -/
theorem c8_decode_fallback_witness :
    ((fun _ : List ℕ => (none : Option RawTable)) [0] = none)
    ∧ handleUpload (fun _ => none) (fun _ => none) testArtifacts [0]
        = Except.error ApiError.internal :=
  ⟨rfl, (c8_decode_fallback (fun _ => none) (fun _ => none) testArtifacts [0]).1 rfl rfl⟩

/-- A binary class is either `0` or `1`. -/
theorem fin2_eq_zero_or_one (v : Fin 2) : v = 0 ∨ v = 1 := by
  have hv := v.isLt
  have h : v.val = 0 ∨ v.val = 1 := by omega
  rcases h with h | h
  · left; apply Fin.ext; simpa using h
  · right; apply Fin.ext; simpa using h

/-- Evaluation of the API pipeline on the one-row genuine table. -/
theorem apiPredict_tblG_eval : apiPredict testArtifacts tblG = Except.ok respG := by
  have h : resolveColumns tblG.header = requiredColumns := by decide
  have hm : missingColumns requiredColumns = [] := by decide
  have hd : apiDense tblG = some denseG := by
    rw [apiDense, h]
    simp [restrictRows, requiredColumns, idxOfStr, tblG, Cell.toNum, apiImpute,
      fillRow, denseRows, denseRow, denseG]
  simp only [apiPredict, h, hm, if_true]
  rw [hd]
  norm_num [statsOf, testArtifacts, denseG, roundTo, round_eq, respG]

/-- Evaluation of the API pipeline on the three-row table. -/
theorem apiPredict_tbl3_eval : apiPredict testArtifacts tbl3 = Except.ok resp3api := by
  have h : resolveColumns tbl3.header = requiredColumns := by decide
  have hm : missingColumns requiredColumns = [] := by decide
  have hd : apiDense tbl3 = some dense3 := by
    rw [apiDense, h]
    simp [restrictRows, requiredColumns, idxOfStr, tbl3, Cell.toNum, apiImpute,
      fillRow, denseRows, denseRow, dense3]
  simp only [apiPredict, h, hm, if_true]
  rw [hd]
  norm_num [statsOf, testArtifacts, dense3, roundTo, round_eq, resp3api]

/-- Evaluation of the dashboard pipeline on the three-row table. -/
theorem stPredict_tbl3_eval : stPredict testArtifacts tbl3 = some resp3st := by
  have h : resolveColumns tbl3.header = requiredColumns := by decide
  have hm : missingColumns requiredColumns = [] := by decide
  have hd : stDense tbl3 = some dense3 := by
    rw [stDense, h]
    simp [restrictRows, requiredColumns, idxOfStr, tbl3, Cell.toNum, stImpute,
      fillRow, denseRows, denseRow, dense3]
  simp only [stPredict, h, hm, if_true]
  rw [hd]
  norm_num [statsOf, testArtifacts, dense3, roundTo, round_eq, resp3st]

/-- C6: for every scored row, of either surface, the emitted label is
`Genuine` exactly when the classifier's predicted class is `1` (`Fake`
exactly when it is `0`), and the emitted probability is the `predict_proba`
entry of the *predicted* class: `p1` for `Genuine`, `p0` for `Fake`. -/
theorem c6_label_and_probability (A : Artifacts) (dense : List (List ℚ)) :
    (∀ p ∈ mkApiResults A dense,
      (p.prediction = "Genuine" ↔ A.predict (A.scale (dense.getD (p.id - 1) [])) = 1)
      ∧ (p.prediction = "Fake" ↔ A.predict (A.scale (dense.getD (p.id - 1) [])) = 0)
      ∧ p.probability =
          (if A.predict (A.scale (dense.getD (p.id - 1) [])) = 1
           then (A.proba (A.scale (dense.getD (p.id - 1) []))).2
           else (A.proba (A.scale (dense.getD (p.id - 1) []))).1))
    ∧ (∀ p ∈ mkStResults A dense,
      (p.prediction = "Genuine" ↔ A.predict (A.scale (dense.getD (p.id - 1) [])) = 1)
      ∧ (p.prediction = "Fake" ↔ A.predict (A.scale (dense.getD (p.id - 1) [])) = 0)
      ∧ p.probability =
          (if A.predict (A.scale (dense.getD (p.id - 1) [])) = 1
           then (A.proba (A.scale (dense.getD (p.id - 1) []))).2
           else (A.proba (A.scale (dense.getD (p.id - 1) []))).1)) := by
  constructor
  · intro p hp
    obtain ⟨i, hi, hid, hp⟩ := mkApiResults_mem A dense p hp
    subst hp
    simp only [Nat.add_sub_cancel]
    set v := A.predict (A.scale (dense.getD i [])) with hv
    rcases fin2_eq_zero_or_one v with h0 | h1
    · simp [h0]
    · simp [h1]
  · intro p hp
    obtain ⟨i, hi, hid, hp⟩ := mkStResults_mem A dense p hp
    subst hp
    simp only [Nat.add_sub_cancel]
    set v := A.predict (A.scale (dense.getD i [])) with hv
    rcases fin2_eq_zero_or_one v with h0 | h1
    · simp [h0]
    · simp [h1]

/-- Witness for C6 at the one-row genuine table: the emitted row is labelled
`Genuine` with the class-1 probability. -/
theorem c6_label_and_probability_witness :
    rowG ∈ mkApiResults testArtifacts denseG
    ∧ ((rowG.prediction = "Genuine" ↔
        testArtifacts.predict (testArtifacts.scale (denseG.getD (rowG.id - 1) [])) = 1)
      ∧ (rowG.prediction = "Fake" ↔
        testArtifacts.predict (testArtifacts.scale (denseG.getD (rowG.id - 1) [])) = 0)
      ∧ rowG.probability =
          (if testArtifacts.predict (testArtifacts.scale (denseG.getD (rowG.id - 1) [])) = 1
           then (testArtifacts.proba (testArtifacts.scale (denseG.getD (rowG.id - 1) []))).2
           else (testArtifacts.proba (testArtifacts.scale (denseG.getD (rowG.id - 1) []))).1)) := by
  have hmem : rowG ∈ mkApiResults testArtifacts denseG := by
    have he : mkApiResults testArtifacts denseG = [rowG] := by
      norm_num [mkApiResults, denseG, rowG, testArtifacts, requiredColumns,
        show List.range 1 = [0] from rfl]
    rw [he]
    exact List.mem_singleton.mpr rfl
  exact ⟨hmem, (c6_label_and_probability testArtifacts denseG).1 rowG hmem⟩

/-- C7 counterexample: the claim names the result images `genuine.png` and
`fake.png`, but the code builds `/images/vrai.png` / `/images/faux.png`
(api_app.py line 126); here a `Genuine` prediction carries
`/images/vrai.png`, which is neither of the claimed file names. -/
theorem c7_counterexample :
    apiPredict testArtifacts tblG = Except.ok respG
    ∧ respG.predictions.map (fun p => (p.prediction, p.image_url))
        = [("Genuine", "/images/vrai.png")]
    ∧ ("/images/vrai.png" : String) ≠ "/images/genuine.png"
    ∧ ("/images/vrai.png" : String) ≠ "/images/fake.png" := by
  refine ⟨apiPredict_tblG_eval, ?_, by decide, by decide⟩
  norm_num [respG, mkApiResults, denseG, testArtifacts,
    show List.range 1 = [0] from rfl]

/-- C7 amended: every prediction of the HTTP surface carries an image URL
under the static `/images` mount, referencing the two fixed result images
`vrai.png` (when the label is `Genuine`) and `faux.png` (when it is
`Fake`). -/
theorem c7_amended_image_urls (A : Artifacts) (t : RawTable)
    (r : PredictionResponse) (hok : apiPredict A t = Except.ok r) :
    ∀ p ∈ r.predictions,
      p.image_url
        = (if p.prediction = "Genuine" then "/images/vrai.png" else "/images/faux.png")
      ∧ (p.image_url = "/images/vrai.png" ∨ p.image_url = "/images/faux.png") := by
  intro p hp
  obtain ⟨-, dense, -, hpred, -⟩ := apiPredict_ok A t r hok
  rw [hpred] at hp
  obtain ⟨i, hi, hid, hp⟩ := mkApiResults_mem A dense p hp
  subst hp
  set v := A.predict (A.scale (dense.getD i [])) with hv
  rcases fin2_eq_zero_or_one v with h0 | h1
  · simp [h0]
  · simp [h1]

/-- Witness for C7 (amended) at the one-row genuine table. -/
theorem c7_amended_image_urls_witness :
    apiPredict testArtifacts tblG = Except.ok respG
    ∧ ∀ p ∈ respG.predictions,
      p.image_url
        = (if p.prediction = "Genuine" then "/images/vrai.png" else "/images/faux.png")
      ∧ (p.image_url = "/images/vrai.png" ∨ p.image_url = "/images/faux.png") :=
  ⟨apiPredict_tblG_eval,
   c7_amended_image_urls testArtifacts tblG respG apiPredict_tblG_eval⟩

/-- C9: for every successfully scored batch (on either surface), the counts
satisfy `genuine + fake = total` with `total > 0`, each percentage is the
rounding of the exact ratio at that surface's fixed number of decimals
(2 for the API, 1 for the dashboard — the same number for both percentages of
one response), and the two percentages sum to `100` within the rounding
tolerance of one unit in the last place. -/
theorem c9_stats_invariants (A : Artifacts) (t : RawTable) :
    (∀ r, apiPredict A t = Except.ok r →
      0 < r.stats.total
      ∧ r.stats.genuine + r.stats.fake = r.stats.total
      ∧ r.stats.genuine_percentage
          = roundTo 2 ((r.stats.genuine : ℚ) / (r.stats.total : ℚ) * 100)
      ∧ r.stats.fake_percentage
          = roundTo 2 ((r.stats.fake : ℚ) / (r.stats.total : ℚ) * 100)
      ∧ |r.stats.genuine_percentage + r.stats.fake_percentage - 100| ≤ 1 / 100)
    ∧ (∀ s, stPredict A t = some s →
      0 < s.stats.total
      ∧ s.stats.genuine + s.stats.fake = s.stats.total
      ∧ s.stats.genuine_percentage
          = roundTo 1 ((s.stats.genuine : ℚ) / (s.stats.total : ℚ) * 100)
      ∧ s.stats.fake_percentage
          = roundTo 1 ((s.stats.fake : ℚ) / (s.stats.total : ℚ) * 100)
      ∧ |s.stats.genuine_percentage + s.stats.fake_percentage - 100| ≤ 1 / 10) := by
  constructor
  · intro r hok
    obtain ⟨-, dense, -, -, hs⟩ := apiPredict_ok A t r hok
    have h := statsOf_spec 2 _ _ hs
    exact ⟨h.1, h.2.1, h.2.2.1, h.2.2.2.1, h.2.2.2.2.trans_eq (by norm_num)⟩
  · intro s hsome
    obtain ⟨-, dense, -, -, hs⟩ := stPredict_some A t s hsome
    have h := statsOf_spec 1 _ _ hs
    exact ⟨h.1, h.2.1, h.2.2.1, h.2.2.2.1, h.2.2.2.2.trans_eq (by norm_num)⟩

/-- Witness for C9 on the three-row batch, on both surfaces. -/
theorem c9_stats_invariants_witness :
    apiPredict testArtifacts tbl3 = Except.ok resp3api
    ∧ stPredict testArtifacts tbl3 = some resp3st
    ∧ (0 < resp3api.stats.total
      ∧ resp3api.stats.genuine + resp3api.stats.fake = resp3api.stats.total
      ∧ resp3api.stats.genuine_percentage
          = roundTo 2 ((resp3api.stats.genuine : ℚ) / (resp3api.stats.total : ℚ) * 100)
      ∧ resp3api.stats.fake_percentage
          = roundTo 2 ((resp3api.stats.fake : ℚ) / (resp3api.stats.total : ℚ) * 100)
      ∧ |resp3api.stats.genuine_percentage + resp3api.stats.fake_percentage - 100|
          ≤ 1 / 100)
    ∧ (0 < resp3st.stats.total
      ∧ resp3st.stats.genuine + resp3st.stats.fake = resp3st.stats.total
      ∧ resp3st.stats.genuine_percentage
          = roundTo 1 ((resp3st.stats.genuine : ℚ) / (resp3st.stats.total : ℚ) * 100)
      ∧ resp3st.stats.fake_percentage
          = roundTo 1 ((resp3st.stats.fake : ℚ) / (resp3st.stats.total : ℚ) * 100)
      ∧ |resp3st.stats.genuine_percentage + resp3st.stats.fake_percentage - 100|
          ≤ 1 / 10) :=
  ⟨apiPredict_tbl3_eval, stPredict_tbl3_eval,
   (c9_stats_invariants testArtifacts tbl3).1 resp3api apiPredict_tbl3_eval,
   (c9_stats_invariants testArtifacts tbl3).2 resp3st stPredict_tbl3_eval⟩

/-- C10: every successfully scored row, on either surface, carries a
`features` record whose keys are exactly the six canonical columns
(unresolved extra input columns never appear), and whose values are the
post-coercion, post-imputation row of that surface's dense table at the
prediction's position — the very values fed to the scaler, as the label is
recomputed from them. -/
theorem c10_features_exact (A : Artifacts) (t : RawTable) :
    (∀ r, apiPredict A t = Except.ok r → ∀ p ∈ r.predictions,
      p.features.map Prod.fst = requiredColumns
      ∧ ∃ dense, apiDense t = some dense
          ∧ dense.get? (p.id - 1) = some (p.features.map Prod.snd)
          ∧ p.prediction = (if A.predict (A.scale (p.features.map Prod.snd)) ≠ 0
              then "Genuine" else "Fake"))
    ∧ (∀ s, stPredict A t = some s → ∀ p ∈ s.predictions,
      p.features.map Prod.fst = requiredColumns
      ∧ ∃ dense, stDense t = some dense
          ∧ dense.get? (p.id - 1) = some (p.features.map Prod.snd)
          ∧ p.prediction = (if A.predict (A.scale (p.features.map Prod.snd)) ≠ 0
              then "Genuine" else "Fake")) := by
  constructor
  · intro r hok p hp
    obtain ⟨-, dense, hd, hpred, -⟩ := apiPredict_ok A t r hok
    rw [hpred] at hp
    obtain ⟨i, hi, hid, hp⟩ := mkApiResults_mem A dense p hp
    have hrowlen : (dense.getD i []).length = requiredColumns.length := by
      have hd' := hd
      rw [apiDense] at hd'
      have hmem : dense.getD i [] ∈ dense := by
        rw [List.getD_eq_getElem?_getD, List.getElem?_eq_getElem hi]
        exact List.getElem_mem hi
      obtain ⟨r0, hr0, hdr⟩ := denseRows_mem _ dense _ hd' hmem
      have h1 := denseRow_length r0 _ hdr
      obtain ⟨r1, hr1, h2⟩ := apiImpute_row_length _ r0 hr0
      have h3 := restrictRows_row_length _ _ r1 hr1
      omega
    subst hp
    simp only [Nat.add_sub_cancel]
    have hsnd : (requiredColumns.zip (dense.getD i [])).map Prod.snd = dense.getD i [] :=
      List.map_snd_zip _ _ (le_of_eq hrowlen)
    refine ⟨List.map_fst_zip _ _ (le_of_eq hrowlen.symm), dense, hd, ?_, ?_⟩
    · rw [hsnd, List.get?_eq_getElem?, List.getElem?_eq_getElem hi,
        List.getD_eq_getElem?_getD, List.getElem?_eq_getElem hi]
      rfl
    · rw [hsnd]
  · intro s hsome p hp
    obtain ⟨-, dense, hd, hpred, -⟩ := stPredict_some A t s hsome
    rw [hpred] at hp
    obtain ⟨i, hi, hid, hp⟩ := mkStResults_mem A dense p hp
    have hrowlen : (dense.getD i []).length = requiredColumns.length := by
      have hd' := hd
      rw [stDense] at hd'
      have hmem : dense.getD i [] ∈ dense := by
        rw [List.getD_eq_getElem?_getD, List.getElem?_eq_getElem hi]
        exact List.getElem_mem hi
      obtain ⟨r0, hr0, hdr⟩ := denseRows_mem _ dense _ hd' hmem
      have h1 := denseRow_length r0 _ hdr
      obtain ⟨r1, hr1, h2⟩ := stImpute_row_length _ _ r0 hr0
      have h3 := restrictRows_row_length _ _ r1 hr1
      omega
    subst hp
    simp only [Nat.add_sub_cancel]
    have hsnd : (requiredColumns.zip (dense.getD i [])).map Prod.snd = dense.getD i [] :=
      List.map_snd_zip _ _ (le_of_eq hrowlen)
    refine ⟨List.map_fst_zip _ _ (le_of_eq hrowlen.symm), dense, hd, ?_, ?_⟩
    · rw [hsnd, List.get?_eq_getElem?, List.getElem?_eq_getElem hi,
        List.getD_eq_getElem?_getD, List.getElem?_eq_getElem hi]
      rfl
    · rw [hsnd]

/-- Witness for C10 on both surfaces: the API at the one-row genuine table
and the dashboard at the three-row table. -/
theorem c10_features_exact_witness :
    apiPredict testArtifacts tblG = Except.ok respG
    ∧ stPredict testArtifacts tbl3 = some resp3st
    ∧ (∀ p ∈ respG.predictions,
      p.features.map Prod.fst = requiredColumns
      ∧ ∃ dense, apiDense tblG = some dense
          ∧ dense.get? (p.id - 1) = some (p.features.map Prod.snd)
          ∧ p.prediction
              = (if testArtifacts.predict (testArtifacts.scale (p.features.map Prod.snd)) ≠ 0
                 then "Genuine" else "Fake"))
    ∧ (∀ p ∈ resp3st.predictions,
      p.features.map Prod.fst = requiredColumns
      ∧ ∃ dense, stDense tbl3 = some dense
          ∧ dense.get? (p.id - 1) = some (p.features.map Prod.snd)
          ∧ p.prediction
              = (if testArtifacts.predict (testArtifacts.scale (p.features.map Prod.snd)) ≠ 0
                 then "Genuine" else "Fake")) :=
  ⟨apiPredict_tblG_eval, stPredict_tbl3_eval,
   (c10_features_exact testArtifacts tblG).1 respG apiPredict_tblG_eval,
   (c10_features_exact testArtifacts tbl3).2 resp3st stPredict_tbl3_eval⟩

/-- A label present in a list is found within its length. -/
theorem idxOfStr_lt (c : String) (l : List String) (h : c ∈ l) :
    idxOfStr c l < l.length := by
  induction l with
  | nil => simp at h
  | cons hd tl ih =>
    rw [idxOfStr]
    by_cases he : hd = c
    · rw [if_pos he]
      simp
    · rw [if_neg he]
      have : c ∈ tl := by
        rcases List.mem_cons.mp h with h1 | h1
        · exact absurd h1.symm he
        · exact h1
      simpa using ih this

/-- When the missing-column check passes, every canonical column is present
in the resolved header. -/
theorem missing_nil_mem (header : List String)
    (h : missingColumns header = []) :
    ∀ c ∈ requiredColumns, c ∈ header := by
  intro c hc
  rw [missingColumns, List.filter_eq_nil_iff] at h
  have := h c hc
  simpa using this

/-- On a well-formed fully numeric table that passes the column check, the
restricted and coerced table has no missing cells. -/
theorem restrictRows_allSome (t : RawTable) (hnum : t.allNum = true)
    (hmiss : missingColumns (resolveColumns t.header) = []) :
    ∀ r ∈ restrictRows (resolveColumns t.header) t.rows, ∀ c ∈ r, c.isSome := by
  intro r hr c hc
  simp only [restrictRows, List.mem_map] at hr
  obtain ⟨r0, hr0, rfl⟩ := hr
  simp only [List.mem_map] at hc
  obtain ⟨col, hcol, rfl⟩ := hc
  have hcolmem : col ∈ resolveColumns t.header :=
    missing_nil_mem _ hmiss col hcol
  have hidx : idxOfStr col (resolveColumns t.header)
      < (resolveColumns t.header).length := idxOfStr_lt _ _ hcolmem
  rw [RawTable.allNum, List.all_eq_true] at hnum
  have h0 := hnum r0 hr0
  rw [Bool.and_eq_true, beq_iff_eq, List.all_eq_true] at h0
  obtain ⟨hlen, hcells⟩ := h0
  have hlt : idxOfStr col (resolveColumns t.header) < r0.length := by
    rw [resolveColumns_length] at hidx
    omega
  have hmem2 : r0.getD (idxOfStr col (resolveColumns t.header)) Cell.empty ∈ r0 := by
    rw [List.getD_eq_getElem?_getD, List.getElem?_eq_getElem hlt]
    exact List.getElem_mem hlt
  exact hcells _ hmem2

/-- The API imputation is the identity on a table without missing cells. -/
theorem apiImpute_of_allSome (rows : List (List (Option ℚ)))
    (h : ∀ r ∈ rows, ∀ c ∈ r, c.isSome) : apiImpute rows = rows := by
  rw [apiImpute]
  calc rows.map (fillRow (fun j => median (someVals (colOf rows j))) 0)
      = rows.map id :=
        List.map_congr_left (fun r hr => fillRow_allSome _ 0 r (h r hr))
    _ = rows := List.map_id rows

/-- The dashboard imputation also acts as the identity when the restricted
table has no missing cells (the buggy fill values are then never used). -/
theorem stImpute_of_allSome (header : List String) (rows : List (List Cell))
    (h : ∀ r ∈ restrictRows header rows, ∀ c ∈ r, c.isSome) :
    stImpute header rows = restrictRows header rows := by
  rw [stImpute]
  calc (restrictRows header rows).map _
      = (restrictRows header rows).map id :=
        List.map_congr_left (fun r hr => fillRow_allSome _ 0 r (h r hr))
    _ = restrictRows header rows := List.map_id _

/-- On a well-formed fully numeric table both surfaces feed the scaler the
same dense table. -/
theorem denses_eq (t : RawTable) (hnum : t.allNum = true)
    (hmiss : missingColumns (resolveColumns t.header) = []) :
    apiDense t = stDense t := by
  rw [apiDense, stDense,
    apiImpute_of_allSome _ (restrictRows_allSome t hnum hmiss),
    stImpute_of_allSome _ _ (restrictRows_allSome t hnum hmiss)]

/-- The counts of the stats block. -/
theorem statsOf_fields (k : ℕ) (preds : List (Fin 2)) (s : StatsResult)
    (h : statsOf k preds = some s) :
    s.total = preds.length ∧ s.genuine = (preds.map Fin.val).sum
    ∧ s.fake = preds.length - (preds.map Fin.val).sum := by
  rw [statsOf] at h
  by_cases hn : preds.length = 0
  · rw [if_pos hn] at h
    exact absurd h (by simp)
  · rw [if_neg hn] at h
    have hs := Option.some.inj h
    subst hs
    exact ⟨rfl, rfl, rfl⟩

/-- Both formatters emit the same ids, labels, probabilities and features. -/
theorem result_views_eq (A : Artifacts) (dense : List (List ℚ)) :
    (mkApiResults A dense).map apiRowView = (mkStResults A dense).map stRowView := by
  rw [mkApiResults, mkStResults, List.map_map, List.map_map]
  rfl

/-- C2 amended: on a well-formed, fully numeric upload the two surfaces run
the same prediction logic — identical per-row ids, labels, probabilities and
imputed features, and identical counts (an outcome view that also matches on
every failure path); but the percentages are rounded to 2 decimal places by
the API and to 1 by the dashboard (both roundings of the same exact ratios),
so the reported stats can differ in their last decimals.  (On inputs with
coercion failures the surfaces also diverge in imputation — see the C4
analysis.) -/
theorem c2_amended_equivalence (A : Artifacts) (t : RawTable)
    (hnum : t.allNum = true) :
    (apiPredict A t).toOption.map apiView = (stPredict A t).map stView
    ∧ (∀ r s, apiPredict A t = Except.ok r → stPredict A t = some s →
      r.stats.total = s.stats.total
      ∧ r.stats.genuine = s.stats.genuine
      ∧ r.stats.fake = s.stats.fake
      ∧ r.stats.genuine_percentage
          = roundTo 2 ((s.stats.genuine : ℚ) / (s.stats.total : ℚ) * 100)
      ∧ s.stats.genuine_percentage
          = roundTo 1 ((s.stats.genuine : ℚ) / (s.stats.total : ℚ) * 100)
      ∧ r.stats.fake_percentage
          = roundTo 2 ((s.stats.fake : ℚ) / (s.stats.total : ℚ) * 100)
      ∧ s.stats.fake_percentage
          = roundTo 1 ((s.stats.fake : ℚ) / (s.stats.total : ℚ) * 100)) := by
  constructor
  · by_cases hmiss : missingColumns (resolveColumns t.header) = []
    · have hde := denses_eq t hnum hmiss
      rw [apiPredict, stPredict, if_pos hmiss, if_pos hmiss, ← hde]
      cases hd : apiDense t with
      | none => rfl
      | some dense =>
        by_cases hlen : (dense.map (fun r => A.predict (A.scale r))).length = 0
        · have h2 : statsOf 2 (dense.map (fun r => A.predict (A.scale r))) = none := by
            rw [statsOf, if_pos hlen]
          have h1 : statsOf 1 (dense.map (fun r => A.predict (A.scale r))) = none := by
            rw [statsOf, if_pos hlen]
          simp only [h2, h1]
          rfl
        · have h2 : statsOf 2 (dense.map (fun r => A.predict (A.scale r)))
              = some { total := (dense.map (fun r => A.predict (A.scale r))).length
                       genuine := ((dense.map (fun r => A.predict (A.scale r))).map Fin.val).sum
                       fake := (dense.map (fun r => A.predict (A.scale r))).length
                         - ((dense.map (fun r => A.predict (A.scale r))).map Fin.val).sum
                       genuine_percentage := roundTo 2
                         ((((dense.map (fun r => A.predict (A.scale r))).map Fin.val).sum : ℚ)
                           / ((dense.map (fun r => A.predict (A.scale r))).length : ℚ) * 100)
                       fake_percentage := roundTo 2
                         ((((dense.map (fun r => A.predict (A.scale r))).length
                             - ((dense.map (fun r => A.predict (A.scale r))).map Fin.val).sum : ℕ) : ℚ)
                           / ((dense.map (fun r => A.predict (A.scale r))).length : ℚ) * 100) } := by
            rw [statsOf, if_neg hlen]
          have h1 : statsOf 1 (dense.map (fun r => A.predict (A.scale r)))
              = some { total := (dense.map (fun r => A.predict (A.scale r))).length
                       genuine := ((dense.map (fun r => A.predict (A.scale r))).map Fin.val).sum
                       fake := (dense.map (fun r => A.predict (A.scale r))).length
                         - ((dense.map (fun r => A.predict (A.scale r))).map Fin.val).sum
                       genuine_percentage := roundTo 1
                         ((((dense.map (fun r => A.predict (A.scale r))).map Fin.val).sum : ℚ)
                           / ((dense.map (fun r => A.predict (A.scale r))).length : ℚ) * 100)
                       fake_percentage := roundTo 1
                         ((((dense.map (fun r => A.predict (A.scale r))).length
                             - ((dense.map (fun r => A.predict (A.scale r))).map Fin.val).sum : ℕ) : ℚ)
                           / ((dense.map (fun r => A.predict (A.scale r))).length : ℚ) * 100) } := by
            rw [statsOf, if_neg hlen]
          simp only [h2, h1, Except.toOption, Option.map_some']
          rw [apiView, stView, result_views_eq A dense]
    · rw [apiPredict, stPredict, if_neg hmiss, if_neg hmiss]
      rfl
  · intro r s hok hsome
    obtain ⟨hmiss, dense, hda, -, hsa⟩ := apiPredict_ok A t r hok
    obtain ⟨-, dense', hds, -, hss⟩ := stPredict_some A t s hsome
    have hde : stDense t = some dense := by
      rw [← denses_eq t hnum hmiss]
      exact hda
    have he : dense = dense' := Option.some.inj (hde.symm.trans hds)
    subst he
    have hfa := statsOf_fields 2 _ _ hsa
    have hfs := statsOf_fields 1 _ _ hss
    have hspeca := statsOf_spec 2 _ _ hsa
    have hspecs := statsOf_spec 1 _ _ hss
    have htot : r.stats.total = s.stats.total := by rw [hfa.1, hfs.1]
    have hgen : r.stats.genuine = s.stats.genuine := by rw [hfa.2.1, hfs.2.1]
    have hfak : r.stats.fake = s.stats.fake := by rw [hfa.2.2, hfs.2.2]
    refine ⟨htot, hgen, hfak, ?_, hspecs.2.2.1, ?_, hspecs.2.2.2.1⟩
    · rw [hspeca.2.2.1, htot, hgen]
    · rw [hspeca.2.2.2.1, htot, hfak]

/-- Evaluation of the API pipeline on the table with a junk `margin_low`
cell. -/
theorem apiPredict_tbl4_eval : apiPredict testArtifacts tbl4 = Except.ok resp4api := by
  have h : resolveColumns tbl4.header = requiredColumns := by decide
  have hm : missingColumns requiredColumns = [] := by decide
  have hd : apiDense tbl4 = some dense4 := by
    rw [apiDense, h]
    simp [restrictRows, requiredColumns, idxOfStr, tbl4, Cell.toNum, apiImpute,
      fillRow, denseRows, denseRow, colOf, someVals, median, sortQ, insertSorted,
      dense4]
    norm_num
  simp only [apiPredict, h, hm, if_true]
  rw [hd]
  norm_num [statsOf, testArtifacts, dense4, roundTo, round_eq, resp4api]

/-- C4: the claim describes batch-median imputation of coercion failures.
The API does exactly that: on `tbl4` (whose `margin_low` column holds junk,
`4` and `6`) the junk cell becomes the coerced column's median `5`.  But the
dashboard's `predict_data` (streamlit_app.py line 233) evaluates
`df.median()` on the *pre-coercion* dataframe inside the chained expression,
so the junk column's median is unavailable (pandas skips the object column,
or raises in pandas ≥ 2) and the missing cell is never imputed: the run
fails, returning `None` instead of the claimed imputed batch. -/
theorem c4_dashboard_skips_imputation :
    median (someVals (colOf (restrictRows (resolveColumns tbl4.header) tbl4.rows) 3))
      = some 5
    ∧ apiPredict testArtifacts tbl4 = Except.ok resp4api
    ∧ resp4api.predictions.map (fun p => p.features)
        = [[("diagonal", 1), ("height_left", 1), ("height_right", 1),
            ("margin_low", 5), ("margin_up", 1), ("length", 1)],
           [("diagonal", 1), ("height_left", 1), ("height_right", 1),
            ("margin_low", 4), ("margin_up", 1), ("length", 1)],
           [("diagonal", 0), ("height_left", 1), ("height_right", 1),
            ("margin_low", 6), ("margin_up", 1), ("length", 1)]]
    ∧ stPredict testArtifacts tbl4 = none := by
  refine ⟨?_, apiPredict_tbl4_eval, ?_, ?_⟩
  · have h : resolveColumns tbl4.header = requiredColumns := by decide
    rw [h]
    simp [restrictRows, requiredColumns, idxOfStr, tbl4, Cell.toNum, colOf,
      someVals, median, sortQ, insertSorted]
    norm_num
    all_goals simp
  · norm_num [resp4api, mkApiResults, dense4, testArtifacts, requiredColumns,
      show List.range 3 = [0, 1, 2] from rfl]
  · have h : resolveColumns tbl4.header = requiredColumns := by decide
    have hm : missingColumns requiredColumns = [] := by decide
    have hd : stDense tbl4 = none := by
      rw [stDense, h]
      simp [restrictRows, requiredColumns, idxOfStr, tbl4, Cell.toNum, stImpute,
        fillRow, denseRows, denseRow, rawCol, Cell.isJunk]
    simp only [stPredict, h, hm, if_true]
    rw [hd]

/-- C2 counterexample: on the same three-row upload with the same artifacts
the two surfaces agree on every count but report different rounded
percentages (`33.33` vs `33.3` and `66.67` vs `66.7`), refuting "identical
stats (same counts and same rounded percentages)". -/
theorem c2_counterexample :
    apiPredict testArtifacts tbl3 = Except.ok resp3api
    ∧ stPredict testArtifacts tbl3 = some resp3st
    ∧ resp3api.stats.genuine_percentage ≠ resp3st.stats.genuine_percentage
    ∧ resp3api.stats.fake_percentage ≠ resp3st.stats.fake_percentage := by
  refine ⟨apiPredict_tbl3_eval, stPredict_tbl3_eval, ?_, ?_⟩
  · norm_num [resp3api, resp3st]
  · norm_num [resp3api, resp3st]

/-- Witness for C2 (amended) at the three-row table. -/
theorem c2_amended_equivalence_witness :
    tbl3.allNum = true
    ∧ (apiPredict testArtifacts tbl3).toOption.map apiView
        = (stPredict testArtifacts tbl3).map stView
    ∧ (resp3api.stats.total = resp3st.stats.total
      ∧ resp3api.stats.genuine = resp3st.stats.genuine
      ∧ resp3api.stats.fake = resp3st.stats.fake
      ∧ resp3api.stats.genuine_percentage
          = roundTo 2 ((resp3st.stats.genuine : ℚ) / (resp3st.stats.total : ℚ) * 100)
      ∧ resp3st.stats.genuine_percentage
          = roundTo 1 ((resp3st.stats.genuine : ℚ) / (resp3st.stats.total : ℚ) * 100)
      ∧ resp3api.stats.fake_percentage
          = roundTo 2 ((resp3st.stats.fake : ℚ) / (resp3st.stats.total : ℚ) * 100)
      ∧ resp3st.stats.fake_percentage
          = roundTo 1 ((resp3st.stats.fake : ℚ) / (resp3st.stats.total : ℚ) * 100)) :=
  ⟨by decide,
   (c2_amended_equivalence testArtifacts tbl3 (by decide)).1,
   (c2_amended_equivalence testArtifacts tbl3 (by decide)).2 resp3api resp3st
     apiPredict_tbl3_eval stPredict_tbl3_eval⟩
